import Mathlib

/-!
Shallow embedding of the LumePay escrow program
(`src/apps/contracts/src/state.rs`, `src/apps/contracts/src/error.rs`,
`src/apps/contracts/src/processor.rs`).

Pubkeys and listing ids are opaque 32-byte identities that the program only
compares for equality; they are modelled as `Nat`.  Transaction signatures are
64-byte arrays, modelled as `List Nat` (the zeroed array `[0; 64]` becomes
`List.replicate 64 0`).  `u64` amounts are `Nat` (the program never does
arithmetic on them); `i64` timestamps are `Int`, with the release-profile
wrapping semantics of `+` made explicit where the program adds timestamps.
External collaborators (clock, rent sysvar, signature attestation, the SPL
token transfer) are parameters of each operation: the clock is the `now`
argument, rent exemption and signer flags are booleans on the account
structures, and the outcome of the token-program invocation is `transfer_ok`.
Each processor entry point becomes a total function from the deserialized
escrow record and its inputs to `Except ProgramError Escrow`; persisting the
result into the storage slot is `persist`.
-/

namespace LumePay

/-- The `EscrowState` enum of `state.rs`. -/
inductive EscrowState
  | Uninitialized
  | Created
  | Funded
  | Released
  | Refunded
  | Disputed
  | Closed
deriving DecidableEq

/-- 64-byte transaction signatures, as lists of bytes. -/
def Signature : Type := List Nat

instance : DecidableEq Signature := by
  unfold Signature
  infer_instance

/-- The zeroed signature `[0u8; 64]` written by Initialize. -/
def zeroSignature : Signature := List.replicate 64 0

/-- The `Escrow` record of `state.rs`. -/
structure Escrow where
  is_initialized : Bool
  seller_pubkey : Nat
  buyer_pubkey : Nat
  seller_token_account : Nat
  buyer_token_account : Nat
  escrow_token_account : Nat
  amount : Nat
  state : EscrowState
  creation_timestamp : Int
  release_timestamp : Int
  dispute_time_window : Int
  listing_id : Nat
  transaction_signature : Signature
deriving DecidableEq

/-- Reduce an integer to the representative of its class mod 2^64 that lies in
the `i64` range, i.e. the value an `i64` register holds. -/
def i64wrap (x : Int) : Int := (x + 2 ^ 63) % 2 ^ 64 - 2 ^ 63

/-- `i64` addition as compiled in release mode (overflow wraps mod 2^64). -/
def i64add (a b : Int) : Int := i64wrap (a + b)

/-- The property of lying in the `i64` range. -/
def inI64 (x : Int) : Prop := -(2 ^ 63) ≤ x ∧ x < 2 ^ 63

instance (x : Int) : Decidable (inI64 x) := by
  unfold inI64
  infer_instance

/-- `Escrow::can_release` from `state.rs`. -/
def Escrow.can_release (e : Escrow) (current_timestamp : Int) : Bool :=
  match e.state with
  | .Funded => true
  | .Disputed => decide (e.release_timestamp ≤ current_timestamp)
  | _ => false

/-- `Escrow::can_refund` from `state.rs`. -/
def Escrow.can_refund (e : Escrow) (current_timestamp : Int) : Bool :=
  match e.state with
  | .Funded => true
  | .Disputed => decide (e.release_timestamp ≤ current_timestamp)
  | _ => false

/-- `Escrow::can_dispute` from `state.rs`; the timestamp addition is the
wrapping `i64` addition of the compiled program. -/
def Escrow.can_dispute (e : Escrow) (current_timestamp : Int) : Bool :=
  match e.state with
  | .Funded => decide (current_timestamp < i64add e.creation_timestamp e.dispute_time_window)
  | _ => false

/-- The `EscrowError` enum of `error.rs`. -/
inductive EscrowError
  | InvalidInstruction
  | NotRentExempt
  | ExpectedAmountMismatch
  | AmountOverflow
  | Unauthorized
  | InvalidEscrowState
  | EscrowAlreadyInitialized
  | InvalidTokenAccount
  | InvalidPDA
  | ReleaseTimeNotReached
  | EscrowAlreadyCompleted
  | InvalidRecipient
deriving DecidableEq

/-- A program result error: either one of the program's own errors
(`ProgramError::Custom`) or an error propagated from an external call such as
the token-program transfer. -/
inductive ProgramError
  | custom (e : EscrowError)
  | external
deriving DecidableEq

/-- Whether an operation returned `Ok`. -/
def resultOk (r : Except ProgramError Escrow) : Bool :=
  match r with
  | .ok _ => true
  | .error _ => false

/-- Commit an operation's result to the storage slot: the record is serialized
back only when the operation returns `Ok`; on any error the slot keeps its
previous contents. -/
def persist (slot : Escrow) (r : Except ProgramError Escrow) : Escrow :=
  match r with
  | .ok e => e
  | .error _ => slot

/-- The accounts passed to `process_initialize`: keys and signer flags of the
seller and buyer, the three token-account keys, and the rent sysvar's verdict
`rent.is_exempt(...)` on the escrow account. -/
structure InitAccounts where
  seller_key : Nat
  seller_is_signer : Bool
  seller_token_account_key : Nat
  buyer_key : Nat
  buyer_is_signer : Bool
  buyer_token_account_key : Nat
  escrow_token_account_key : Nat
  rent_exempt : Bool
deriving DecidableEq

/-- `Processor::process_initialize`.  `_stored` is the current contents of the
escrow account's data: the function receives the account but never
deserializes or inspects it. -/
def process_initialize (_stored : Escrow) (acc : InitAccounts) (now : Int)
    (amount : Nat) (release_timestamp dispute_time_window : Int) (listing_id : Nat) :
    Except ProgramError Escrow :=
  if !acc.seller_is_signer then .error (.custom .Unauthorized)
  else if !acc.buyer_is_signer then .error (.custom .Unauthorized)
  else if !acc.rent_exempt then .error (.custom .NotRentExempt)
  else if release_timestamp ≤ now then .error (.custom .ReleaseTimeNotReached)
  else .ok {
    is_initialized := true
    seller_pubkey := acc.seller_key
    buyer_pubkey := acc.buyer_key
    seller_token_account := acc.seller_token_account_key
    buyer_token_account := acc.buyer_token_account_key
    escrow_token_account := acc.escrow_token_account_key
    amount := amount
    state := .Created
    creation_timestamp := now
    release_timestamp := release_timestamp
    dispute_time_window := dispute_time_window
    listing_id := listing_id
    transaction_signature := zeroSignature }

/-- The accounts passed to `process_fund`. -/
structure FundAccounts where
  buyer_key : Nat
  buyer_is_signer : Bool
  buyer_token_account_key : Nat
  escrow_token_account_key : Nat
deriving DecidableEq

/-- `Processor::process_fund`.  `transfer_ok` is the outcome of the
token-program `invoke` that moves `amount` from the buyer's token account to
the escrow token account. -/
def process_fund (escrow_data : Escrow) (acc : FundAccounts) (transfer_ok : Bool)
    (transaction_signature : Signature) : Except ProgramError Escrow :=
  if !acc.buyer_is_signer then .error (.custom .Unauthorized)
  else if escrow_data.state ≠ EscrowState.Created then .error (.custom .InvalidEscrowState)
  else if escrow_data.buyer_pubkey ≠ acc.buyer_key then .error (.custom .Unauthorized)
  else if escrow_data.buyer_token_account ≠ acc.buyer_token_account_key then
    .error (.custom .InvalidTokenAccount)
  else if escrow_data.escrow_token_account ≠ acc.escrow_token_account_key then
    .error (.custom .InvalidTokenAccount)
  else if !transfer_ok then .error .external
  else .ok { escrow_data with
    state := .Funded
    transaction_signature := transaction_signature }

/-- The accounts passed to `process_release`. -/
structure ReleaseAccounts where
  seller_key : Nat
  seller_is_signer : Bool
  escrow_token_account_key : Nat
  seller_token_account_key : Nat
deriving DecidableEq

/-- `Processor::process_release`.  `transfer_ok` is the outcome of the
`invoke_signed` transfer from the escrow token account to the seller's token
account under the program-derived authority. -/
def process_release (escrow_data : Escrow) (acc : ReleaseAccounts) (now : Int)
    (transfer_ok : Bool) (transaction_signature : Signature) : Except ProgramError Escrow :=
  if !acc.seller_is_signer then .error (.custom .Unauthorized)
  else if escrow_data.seller_pubkey ≠ acc.seller_key then .error (.custom .Unauthorized)
  else if !(escrow_data.can_release now) then .error (.custom .InvalidEscrowState)
  else if escrow_data.seller_token_account ≠ acc.seller_token_account_key then
    .error (.custom .InvalidTokenAccount)
  else if escrow_data.escrow_token_account ≠ acc.escrow_token_account_key then
    .error (.custom .InvalidTokenAccount)
  else if !transfer_ok then .error .external
  else .ok { escrow_data with
    state := .Released
    transaction_signature := transaction_signature }

/-- The accounts passed to `process_refund`. -/
structure RefundAccounts where
  seller_key : Nat
  seller_is_signer : Bool
  escrow_token_account_key : Nat
  buyer_token_account_key : Nat
deriving DecidableEq

/-- `Processor::process_refund`.  `transfer_ok` is the outcome of the
`invoke_signed` transfer from the escrow token account back to the buyer's
token account. -/
def process_refund (escrow_data : Escrow) (acc : RefundAccounts) (now : Int)
    (transfer_ok : Bool) (transaction_signature : Signature) : Except ProgramError Escrow :=
  if !acc.seller_is_signer then .error (.custom .Unauthorized)
  else if escrow_data.seller_pubkey ≠ acc.seller_key then .error (.custom .Unauthorized)
  else if !(escrow_data.can_refund now) then .error (.custom .InvalidEscrowState)
  else if escrow_data.buyer_token_account ≠ acc.buyer_token_account_key then
    .error (.custom .InvalidTokenAccount)
  else if escrow_data.escrow_token_account ≠ acc.escrow_token_account_key then
    .error (.custom .InvalidTokenAccount)
  else if !transfer_ok then .error .external
  else .ok { escrow_data with
    state := .Refunded
    transaction_signature := transaction_signature }

/-- The accounts passed to `process_dispute`. -/
structure DisputeAccounts where
  buyer_key : Nat
  buyer_is_signer : Bool
deriving DecidableEq

/-- `Processor::process_dispute`.  The `reason` string is only logged, never
persisted. -/
def process_dispute (escrow_data : Escrow) (acc : DisputeAccounts) (now : Int)
    (_reason : String) : Except ProgramError Escrow :=
  if !acc.buyer_is_signer then .error (.custom .Unauthorized)
  else if escrow_data.buyer_pubkey ≠ acc.buyer_key then .error (.custom .Unauthorized)
  else if !(escrow_data.can_dispute now) then .error (.custom .InvalidEscrowState)
  else .ok { escrow_data with state := .Disputed }

/-! Concrete records and account lists used by the concrete theorems below. -/

/-- An untouched storage slot: zeroed bytes deserialize to an all-default
record in state `Uninitialized`. -/
def emptySlot : Escrow :=
  { is_initialized := false
    seller_pubkey := 0
    buyer_pubkey := 0
    seller_token_account := 0
    buyer_token_account := 0
    escrow_token_account := 0
    amount := 0
    state := .Uninitialized
    creation_timestamp := 0
    release_timestamp := 0
    dispute_time_window := 0
    listing_id := 0
    transaction_signature := zeroSignature }

/-- A well-formed Initialize account list: seller key 1 and buyer key 2 both
signed, token accounts 3/4/5, rent-exempt escrow account. -/
def initAccountsOk : InitAccounts :=
  { seller_key := 1
    seller_is_signer := true
    seller_token_account_key := 3
    buyer_key := 2
    buyer_is_signer := true
    buyer_token_account_key := 4
    escrow_token_account_key := 5
    rent_exempt := true }

/-- A well-formed Fund account list matching `createdRecord`. -/
def fundAccountsOk : FundAccounts :=
  { buyer_key := 2
    buyer_is_signer := true
    buyer_token_account_key := 4
    escrow_token_account_key := 5 }

/-- A non-zero transfer signature. -/
def sigA : Signature := List.replicate 64 1

/-- The record written by `process_initialize emptySlot initAccountsOk 0 1000 1000 500 7`. -/
def createdRecord : Escrow :=
  { is_initialized := true
    seller_pubkey := 1
    buyer_pubkey := 2
    seller_token_account := 3
    buyer_token_account := 4
    escrow_token_account := 5
    amount := 1000
    state := .Created
    creation_timestamp := 0
    release_timestamp := 1000
    dispute_time_window := 500
    listing_id := 7
    transaction_signature := zeroSignature }

/-- `createdRecord` after a successful Fund carrying `sigA`. -/
def fundedRecord : Escrow :=
  { createdRecord with state := .Funded, transaction_signature := sigA }

/-- An initialized, funded record sitting in a storage slot. -/
def fundedStored : Escrow := fundedRecord

/-- A Funded record whose dispute deadline `creation_timestamp +
dispute_time_window` overflows `i64`: creation at `i64::MAX`, window 1. -/
def overflowRecordA : Escrow :=
  { createdRecord with
    state := .Funded
    creation_timestamp := 2 ^ 63 - 1
    dispute_time_window := 1 }

/-! Claim theorems. -/

/-- C1 (code-bug evidence): `process_initialize` never inspects the stored
record.  On a slot holding an initialized, Funded record, an Initialize call
that passes the signer, rent and timestamp checks succeeds and replaces the
record with a fresh `Created` one, instead of failing with
`EscrowAlreadyInitialized` as the specification requires. -/
theorem initialize_overwrites_initialized_slot :
    fundedStored.is_initialized = true ∧
    fundedStored.state ≠ EscrowState.Uninitialized ∧
    process_initialize fundedStored initAccountsOk 5 1000 900 500 7 =
      .ok { createdRecord with creation_timestamp := 5, release_timestamp := 900 } ∧
    persist fundedStored ( process_initialize fundedStored initAccountsOk 5 1000 900 500 7) ≠
      fundedStored := by
  refine ⟨rfl, by decide, rfl, ?_⟩
  decide

/-- C2 (code-bug evidence): because re-initialization is not rejected, the
state can move backward.  A record funded at time 0 (state `Funded`) is reset
to `Created` by a second successful Initialize at time 5, so a sequence of
successful operations re-enters `Created` after leaving it. -/
theorem reinitialize_resets_funded_to_created :
    process_fund createdRecord fundAccountsOk true sigA = .ok fundedRecord ∧
    fundedRecord.state = EscrowState.Funded ∧
    process_initialize fundedRecord initAccountsOk 5 1000 900 500 7 =
      .ok { createdRecord with creation_timestamp := 5, release_timestamp := 900 } ∧
    (Escrow.state { createdRecord with creation_timestamp := 5, release_timestamp := 900 }) =
      EscrowState.Created := by
  exact ⟨rfl, rfl, rfl, rfl⟩

/-- C3 counterexample: for a Funded record with `creation_timestamp = 2^63 - 1`
and `dispute_time_window = 1`, the exact sum is `2^63`, so the claim's
condition `current_timestamp < creation_timestamp + dispute_time_window` holds
at `current_timestamp = 0`; but the code's wrapping `i64` addition makes
`can_dispute` return `false`. -/
theorem can_dispute_exact_sum_counterexample :
    overflowRecordA.state = EscrowState.Funded ∧
    (0 : Int) < overflowRecordA.creation_timestamp + overflowRecordA.dispute_time_window ∧
    overflowRecordA.can_dispute 0 = false := by
  decide

/-- Wrapping is the identity on the `i64` range. -/
theorem i64wrap_eq_self (x : Int) (h : inI64 x) : i64wrap x = x := by
  unfold inI64 at h
  unfold i64wrap
  omega

/-- C3 (amended): for every record and every current time, `can_dispute` is
true iff the state is `Funded` and the current time is before the dispute
deadline computed with the wrapping `i64` addition of the compiled program,
and that deadline coincides with the exact sum
`creation_timestamp + dispute_time_window` whenever the exact sum lies in the
`i64` range; `can_release` and `can_refund` are true iff the state is
`Funded`, or the state is `Disputed` and the current time has reached
`release_timestamp`; all three are false in every other state. -/
theorem transition_predicates_spec (e : Escrow) (t : Int) :
    (e.can_dispute t = true ↔
      (e.state = EscrowState.Funded ∧
        t < i64add e.creation_timestamp e.dispute_time_window)) ∧
    (inI64 (e.creation_timestamp + e.dispute_time_window) →
      (e.can_dispute t = true ↔
        (e.state = EscrowState.Funded ∧
          t < e.creation_timestamp + e.dispute_time_window))) ∧
    (e.can_release t = true ↔
      (e.state = EscrowState.Funded ∨
        (e.state = EscrowState.Disputed ∧ e.release_timestamp ≤ t))) ∧
    (e.can_refund t = true ↔
      (e.state = EscrowState.Funded ∨
        (e.state = EscrowState.Disputed ∧ e.release_timestamp ≤ t))) := by
  obtain ⟨init, sp, bp, sta, bta, eta, amt, st, ct, rt, dw, lid, ts⟩ := e
  refine ⟨?_, fun h => ?_, ?_, ?_⟩
  · cases st <;> simp [Escrow.can_dispute]
  · have hadd : i64add ct dw = ct + dw := i64wrap_eq_self _ h
    cases st <;> simp [Escrow.can_dispute, hadd]
  · cases st <;> simp [Escrow.can_release]
  · cases st <;> simp [Escrow.can_refund]

/-- C3 witness: the predicate characterization instantiated on `createdRecord`
at time 3, with the in-range proviso of the exact-sum conjunct discharged on
its deadline sum `0 + 500`. -/
theorem transition_predicates_spec_witness :
    (createdRecord.can_dispute 3 = true ↔
      (createdRecord.state = EscrowState.Funded ∧
        (3 : Int) < i64add createdRecord.creation_timestamp createdRecord.dispute_time_window)) ∧
    (createdRecord.can_dispute 3 = true ↔
      (createdRecord.state = EscrowState.Funded ∧
        (3 : Int) < createdRecord.creation_timestamp + createdRecord.dispute_time_window)) ∧
    (createdRecord.can_release 3 = true ↔
      (createdRecord.state = EscrowState.Funded ∨
        (createdRecord.state = EscrowState.Disputed ∧ createdRecord.release_timestamp ≤ 3))) ∧
    (createdRecord.can_refund 3 = true ↔
      (createdRecord.state = EscrowState.Funded ∨
        (createdRecord.state = EscrowState.Disputed ∧ createdRecord.release_timestamp ≤ 3))) :=
  ⟨(transition_predicates_spec createdRecord 3).1,
   (transition_predicates_spec createdRecord 3).2.1 (by decide),
   (transition_predicates_spec createdRecord 3).2.2.1,
   (transition_predicates_spec createdRecord 3).2.2.2⟩

/-! Inversion lemmas: what a successful operation implies about its inputs and
its output record.  These follow the if-chains of `processor.rs` exactly. -/

/-- `resultOk` is false exactly on errors, and then `persist` keeps the slot. -/
theorem persist_of_not_ok (slot : Escrow) (r : Except ProgramError Escrow)
    (h : resultOk r = false) : persist slot r = slot := by
  cases r with
  | ok e => simp [resultOk] at h
  | error err => rfl

/-- Successful Fund: every check passed, the transfer succeeded, and the output
is the input with `state := Funded` and the new signature. -/
theorem fund_ok_inv (e : Escrow) (acc : FundAccounts) (ok : Bool) (sig : Signature)
    (e2 : Escrow) (h : process_fund e acc ok sig = .ok e2) :
    acc.buyer_is_signer = true ∧ e.state = EscrowState.Created ∧
    e.buyer_pubkey = acc.buyer_key ∧
    e.buyer_token_account = acc.buyer_token_account_key ∧
    e.escrow_token_account = acc.escrow_token_account_key ∧ ok = true ∧
    e2 = { e with state := .Funded, transaction_signature := sig } := by
  unfold process_fund at h
  repeat' split at h
  all_goals simp_all

/-- Successful Release: every check passed (including `can_release`), the
transfer succeeded, and the output is the input with `state := Released` and
the new signature. -/
theorem release_ok_inv (e : Escrow) (acc : ReleaseAccounts) (now : Int) (ok : Bool)
    (sig : Signature) (e2 : Escrow) (h : process_release e acc now ok sig = .ok e2) :
    acc.seller_is_signer = true ∧ e.seller_pubkey = acc.seller_key ∧
    e.can_release now = true ∧
    e.seller_token_account = acc.seller_token_account_key ∧
    e.escrow_token_account = acc.escrow_token_account_key ∧ ok = true ∧
    e2 = { e with state := .Released, transaction_signature := sig } := by
  unfold process_release at h
  repeat' split at h
  all_goals simp_all

/-- Successful Refund: every check passed (including `can_refund`), the
transfer succeeded, and the output is the input with `state := Refunded` and
the new signature. -/
theorem refund_ok_inv (e : Escrow) (acc : RefundAccounts) (now : Int) (ok : Bool)
    (sig : Signature) (e2 : Escrow) (h : process_refund e acc now ok sig = .ok e2) :
    acc.seller_is_signer = true ∧ e.seller_pubkey = acc.seller_key ∧
    e.can_refund now = true ∧
    e.buyer_token_account = acc.buyer_token_account_key ∧
    e.escrow_token_account = acc.escrow_token_account_key ∧ ok = true ∧
    e2 = { e with state := .Refunded, transaction_signature := sig } := by
  unfold process_refund at h
  repeat' split at h
  all_goals simp_all

/-- Successful Dispute: every check passed (including `can_dispute`) and the
output is the input with `state := Disputed`; nothing else changes. -/
theorem dispute_ok_inv (e : Escrow) (acc : DisputeAccounts) (now : Int) (r : String)
    (e2 : Escrow) (h : process_dispute e acc now r = .ok e2) :
    acc.buyer_is_signer = true ∧ e.buyer_pubkey = acc.buyer_key ∧
    e.can_dispute now = true ∧
    e2 = { e with state := .Disputed } := by
  unfold process_dispute at h
  repeat' split at h
  all_goals simp_all

/-- `resultOk r = true` exactly when `r` is `Ok`. -/
theorem resultOk_true_iff (r : Except ProgramError Escrow) :
    resultOk r = true ↔ ∃ e2, r = .ok e2 := by
  cases r <;> simp [resultOk]

/-- A record that has reached `Released`. -/
def releasedRecord : Escrow := { createdRecord with state := .Released }

/-- C4: once a record is `Released` or `Refunded`, every further Fund,
Release, Refund or Dispute call fails and the persisted record is unchanged;
moreover, once the caller passes the signer (and, for Release/Refund/Dispute,
identity) checks, the reported error is `InvalidEscrowState`: Fund because the
state is not `Created`, the other three because the corresponding transition
predicate is false.  Hence the state never leaves `Released`/`Refunded` via
these four operations. -/
theorem terminal_states_absorb (e : Escrow)
    (hterm : e.state = EscrowState.Released ∨ e.state = EscrowState.Refunded) :
    (∀ (acc : FundAccounts) (ok : Bool) (sig : Signature),
        resultOk (process_fund e acc ok sig) = false ∧
        persist e (process_fund e acc ok sig) = e) ∧
    (∀ (acc : ReleaseAccounts) (now : Int) (ok : Bool) (sig : Signature),
        resultOk (process_release e acc now ok sig) = false ∧
        persist e (process_release e acc now ok sig) = e) ∧
    (∀ (acc : RefundAccounts) (now : Int) (ok : Bool) (sig : Signature),
        resultOk (process_refund e acc now ok sig) = false ∧
        persist e (process_refund e acc now ok sig) = e) ∧
    (∀ (acc : DisputeAccounts) (now : Int) (r : String),
        resultOk (process_dispute e acc now r) = false ∧
        persist e (process_dispute e acc now r) = e) ∧
    (∀ (acc : FundAccounts) (ok : Bool) (sig : Signature),
        acc.buyer_is_signer = true →
        process_fund e acc ok sig = .error (.custom .InvalidEscrowState)) ∧
    (∀ (acc : ReleaseAccounts) (now : Int) (ok : Bool) (sig : Signature),
        acc.seller_is_signer = true → e.seller_pubkey = acc.seller_key →
        process_release e acc now ok sig = .error (.custom .InvalidEscrowState)) ∧
    (∀ (acc : RefundAccounts) (now : Int) (ok : Bool) (sig : Signature),
        acc.seller_is_signer = true → e.seller_pubkey = acc.seller_key →
        process_refund e acc now ok sig = .error (.custom .InvalidEscrowState)) ∧
    (∀ (acc : DisputeAccounts) (now : Int) (r : String),
        acc.buyer_is_signer = true → e.buyer_pubkey = acc.buyer_key →
        process_dispute e acc now r = .error (.custom .InvalidEscrowState)) := by
  have hne : e.state ≠ EscrowState.Created := by
    rcases hterm with h | h <;> simp [h]
  have hcr : ∀ t, e.can_release t = false := by
    intro t
    unfold Escrow.can_release
    rcases hterm with h | h <;> rw [h]
  have hcf : ∀ t, e.can_refund t = false := by
    intro t
    unfold Escrow.can_refund
    rcases hterm with h | h <;> rw [h]
  have hcd : ∀ t, e.can_dispute t = false := by
    intro t
    unfold Escrow.can_dispute
    rcases hterm with h | h <;> rw [h]
  have hfund : ∀ (acc : FundAccounts) (ok : Bool) (sig : Signature),
      resultOk (process_fund e acc ok sig) = false := by
    intro acc ok sig
    cases hr : resultOk (process_fund e acc ok sig) with
    | false => rfl
    | true =>
        obtain ⟨e2, he2⟩ := (resultOk_true_iff _).mp hr
        exact absurd (fund_ok_inv e acc ok sig e2 he2).2.1 hne
  have hrel : ∀ (acc : ReleaseAccounts) (now : Int) (ok : Bool) (sig : Signature),
      resultOk (process_release e acc now ok sig) = false := by
    intro acc now ok sig
    cases hr : resultOk (process_release e acc now ok sig) with
    | false => rfl
    | true =>
        obtain ⟨e2, he2⟩ := (resultOk_true_iff _).mp hr
        have := (release_ok_inv e acc now ok sig e2 he2).2.2.1
        rw [hcr now] at this
        exact (Bool.false_ne_true this).elim
  have href : ∀ (acc : RefundAccounts) (now : Int) (ok : Bool) (sig : Signature),
      resultOk (process_refund e acc now ok sig) = false := by
    intro acc now ok sig
    cases hr : resultOk (process_refund e acc now ok sig) with
    | false => rfl
    | true =>
        obtain ⟨e2, he2⟩ := (resultOk_true_iff _).mp hr
        have := (refund_ok_inv e acc now ok sig e2 he2).2.2.1
        rw [hcf now] at this
        exact (Bool.false_ne_true this).elim
  have hdis : ∀ (acc : DisputeAccounts) (now : Int) (r : String),
      resultOk (process_dispute e acc now r) = false := by
    intro acc now r
    cases hr : resultOk (process_dispute e acc now r) with
    | false => rfl
    | true =>
        obtain ⟨e2, he2⟩ := (resultOk_true_iff _).mp hr
        have := (dispute_ok_inv e acc now r e2 he2).2.2.1
        rw [hcd now] at this
        exact (Bool.false_ne_true this).elim
  refine ⟨fun acc ok sig => ⟨hfund acc ok sig, persist_of_not_ok _ _ (hfund acc ok sig)⟩,
    fun acc now ok sig => ⟨hrel acc now ok sig, persist_of_not_ok _ _ (hrel acc now ok sig)⟩,
    fun acc now ok sig => ⟨href acc now ok sig, persist_of_not_ok _ _ (href acc now ok sig)⟩,
    fun acc now r => ⟨hdis acc now r, persist_of_not_ok _ _ (hdis acc now r)⟩,
    ?_, ?_, ?_, ?_⟩
  · intro acc ok sig hs
    simp [process_fund, hs, hne]
  · intro acc now ok sig hs hk
    simp [process_release, hs, hk, hcr]
  · intro acc now ok sig hs hk
    simp [process_refund, hs, hk, hcf]
  · intro acc now r hs hk
    simp [process_dispute, hs, hk, hcd]

/-- C4 witness: a Fund call against a concrete `Released` record fails and
leaves the slot unchanged. -/
theorem terminal_states_absorb_witness :
    resultOk (process_fund releasedRecord fundAccountsOk true sigA) = false ∧
    persist releasedRecord (process_fund releasedRecord fundAccountsOk true sigA) =
      releasedRecord :=
  (terminal_states_absorb releasedRecord (Or.inl rfl)).1 fundAccountsOk true sigA

/-- A Fund account list whose (signed) caller key 99 is not the buyer of
`fundedRecord`. -/
def strangerFundAccounts : FundAccounts :=
  { buyer_key := 99
    buyer_is_signer := true
    buyer_token_account_key := 4
    escrow_token_account_key := 5 }

/-- A Fund account list whose caller did not sign. -/
def unsignedFundAccounts : FundAccounts :=
  { fundAccountsOk with buyer_is_signer := false }

/-- C5 counterexample: a Fund call on a `Funded` record by a signed caller
whose key differs from the record's `buyer_pubkey` fails with
`InvalidEscrowState`, not `Unauthorized`, because `process_fund` checks the
state before the buyer identity. -/
theorem fund_identity_mismatch_wrong_error :
    strangerFundAccounts.buyer_is_signer = true ∧
    fundedRecord.buyer_pubkey ≠ strangerFundAccounts.buyer_key ∧
    process_fund fundedRecord strangerFundAccounts true sigA =
      .error (.custom .InvalidEscrowState) := by
  exact ⟨rfl, by decide, rfl⟩

/-- C5 (amended): Initialize succeeds only when both the seller and buyer
signed, and fails with `Unauthorized` otherwise; Fund and Dispute succeed only
when the caller signed and equals the record's `buyer_pubkey`; Release and
Refund succeed only when the caller signed and equals the record's
`seller_pubkey`.  In every mismatch case the operation fails and the persisted
record is unchanged, with error `Unauthorized` — except that Fund reports
`InvalidEscrowState` when the record's state is not `Created`, because its
state check precedes its identity check. -/
theorem authorization_spec :
    (∀ (stored : Escrow) (acc : InitAccounts) (now : Int) (amount : Nat)
        (rel win : Int) (lst : Nat),
        resultOk ( process_initialize stored acc now amount rel win lst) = true →
        acc.seller_is_signer = true ∧ acc.buyer_is_signer = true) ∧
    (∀ (stored : Escrow) (acc : InitAccounts) (now : Int) (amount : Nat)
        (rel win : Int) (lst : Nat),
        acc.seller_is_signer = false ∨ acc.buyer_is_signer = false →
        process_initialize stored acc now amount rel win lst =
          .error (.custom .Unauthorized)) ∧
    (∀ (e : Escrow) (acc : FundAccounts) (ok : Bool) (sig : Signature),
        resultOk (process_fund e acc ok sig) = true →
        acc.buyer_is_signer = true ∧ e.buyer_pubkey = acc.buyer_key) ∧
    (∀ (e : Escrow) (acc : FundAccounts) (ok : Bool) (sig : Signature),
        acc.buyer_is_signer = false →
        process_fund e acc ok sig = .error (.custom .Unauthorized) ∧
        persist e (process_fund e acc ok sig) = e) ∧
    (∀ (e : Escrow) (acc : FundAccounts) (ok : Bool) (sig : Signature),
        acc.buyer_is_signer = true → e.state = EscrowState.Created →
        e.buyer_pubkey ≠ acc.buyer_key →
        process_fund e acc ok sig = .error (.custom .Unauthorized) ∧
        persist e (process_fund e acc ok sig) = e) ∧
    (∀ (e : Escrow) (acc : FundAccounts) (ok : Bool) (sig : Signature),
        acc.buyer_is_signer = true → e.state ≠ EscrowState.Created →
        process_fund e acc ok sig = .error (.custom .InvalidEscrowState) ∧
        persist e (process_fund e acc ok sig) = e) ∧
    (∀ (e : Escrow) (acc : ReleaseAccounts) (now : Int) (ok : Bool) (sig : Signature),
        resultOk (process_release e acc now ok sig) = true →
        acc.seller_is_signer = true ∧ e.seller_pubkey = acc.seller_key) ∧
    (∀ (e : Escrow) (acc : ReleaseAccounts) (now : Int) (ok : Bool) (sig : Signature),
        acc.seller_is_signer = false ∨
          (acc.seller_is_signer = true ∧ e.seller_pubkey ≠ acc.seller_key) →
        process_release e acc now ok sig = .error (.custom .Unauthorized) ∧
        persist e (process_release e acc now ok sig) = e) ∧
    (∀ (e : Escrow) (acc : RefundAccounts) (now : Int) (ok : Bool) (sig : Signature),
        resultOk (process_refund e acc now ok sig) = true →
        acc.seller_is_signer = true ∧ e.seller_pubkey = acc.seller_key) ∧
    (∀ (e : Escrow) (acc : RefundAccounts) (now : Int) (ok : Bool) (sig : Signature),
        acc.seller_is_signer = false ∨
          (acc.seller_is_signer = true ∧ e.seller_pubkey ≠ acc.seller_key) →
        process_refund e acc now ok sig = .error (.custom .Unauthorized) ∧
        persist e (process_refund e acc now ok sig) = e) ∧
    (∀ (e : Escrow) (acc : DisputeAccounts) (now : Int) (r : String),
        resultOk (process_dispute e acc now r) = true →
        acc.buyer_is_signer = true ∧ e.buyer_pubkey = acc.buyer_key) ∧
    (∀ (e : Escrow) (acc : DisputeAccounts) (now : Int) (r : String),
        acc.buyer_is_signer = false ∨
          (acc.buyer_is_signer = true ∧ e.buyer_pubkey ≠ acc.buyer_key) →
        process_dispute e acc now r = .error (.custom .Unauthorized) ∧
        persist e (process_dispute e acc now r) = e) := by
  refine ⟨?_, ?_, ?_, ?_, ?_, ?_, ?_, ?_, ?_, ?_, ?_, ?_⟩
  · intro stored acc now amount rel win lst h
    obtain ⟨e2, he2⟩ := (resultOk_true_iff _).mp h
    unfold process_initialize at he2
    repeat' split at he2
    all_goals simp_all
  · intro stored acc now amount rel win lst h
    rcases h with h | h <;> simp [ process_initialize, h]
  · intro e acc ok sig h
    obtain ⟨e2, he2⟩ := (resultOk_true_iff _).mp h
    have := fund_ok_inv e acc ok sig e2 he2
    exact ⟨this.1, this.2.2.1⟩
  · intro e acc ok sig h
    constructor
    · simp [process_fund, h]
    · simp [persist, process_fund, h]
  · intro e acc ok sig hs hst hk
    constructor
    · simp [process_fund, hs, hst, hk]
    · simp [persist, process_fund, hs, hst, hk]
  · intro e acc ok sig hs hst
    constructor
    · simp [process_fund, hs, hst]
    · simp [persist, process_fund, hs, hst]
  · intro e acc now ok sig h
    obtain ⟨e2, he2⟩ := (resultOk_true_iff _).mp h
    have := release_ok_inv e acc now ok sig e2 he2
    exact ⟨this.1, this.2.1⟩
  · intro e acc now ok sig h
    rcases h with h | ⟨hs, hk⟩
    · exact ⟨by simp [process_release, h], by simp [persist, process_release, h]⟩
    · exact ⟨by simp [process_release, hs, hk], by simp [persist, process_release, hs, hk]⟩
  · intro e acc now ok sig h
    obtain ⟨e2, he2⟩ := (resultOk_true_iff _).mp h
    have := refund_ok_inv e acc now ok sig e2 he2
    exact ⟨this.1, this.2.1⟩
  · intro e acc now ok sig h
    rcases h with h | ⟨hs, hk⟩
    · exact ⟨by simp [process_refund, h], by simp [persist, process_refund, h]⟩
    · exact ⟨by simp [process_refund, hs, hk], by simp [persist, process_refund, hs, hk]⟩
  · intro e acc now r h
    obtain ⟨e2, he2⟩ := (resultOk_true_iff _).mp h
    have := dispute_ok_inv e acc now r e2 he2
    exact ⟨this.1, this.2.1⟩
  · intro e acc now r h
    rcases h with h | ⟨hs, hk⟩
    · exact ⟨by simp [process_dispute, h], by simp [persist, process_dispute, h]⟩
    · exact ⟨by simp [process_dispute, hs, hk], by simp [persist, process_dispute, hs, hk]⟩

/-- C5 witness: a Fund call without the buyer's signature on a concrete
`Created` record fails with `Unauthorized` and leaves the slot unchanged. -/
theorem authorization_spec_witness :
    process_fund createdRecord unsignedFundAccounts true sigA =
      .error (.custom .Unauthorized) ∧
    persist createdRecord (process_fund createdRecord unsignedFundAccounts true sigA) =
      createdRecord :=
  authorization_spec.2.2.2.1 createdRecord unsignedFundAccounts true sigA rfl

/-- The fields that Fund, Release, Refund and Dispute must not touch: every
field of the record except `state` and `transaction_signature`. -/
def frameEq (e e2 : Escrow) : Prop :=
  e2.is_initialized = e.is_initialized ∧
  e2.seller_pubkey = e.seller_pubkey ∧
  e2.buyer_pubkey = e.buyer_pubkey ∧
  e2.amount = e.amount ∧
  e2.seller_token_account = e.seller_token_account ∧
  e2.buyer_token_account = e.buyer_token_account ∧
  e2.escrow_token_account = e.escrow_token_account ∧
  e2.listing_id = e.listing_id ∧
  e2.creation_timestamp = e.creation_timestamp ∧
  e2.release_timestamp = e.release_timestamp ∧
  e2.dispute_time_window = e.dispute_time_window

/-- C6: a successful Fund, Release, Refund or Dispute preserves every field of
the record other than `state` and `transaction_signature`: the parties' keys,
the three token accounts, the amount, the listing id and all three
timestamps/windows are unchanged. -/
theorem operations_preserve_frame :
    (∀ (e : Escrow) (acc : FundAccounts) (ok : Bool) (sig : Signature) (e2 : Escrow),
        process_fund e acc ok sig = .ok e2 → frameEq e e2) ∧
    (∀ (e : Escrow) (acc : ReleaseAccounts) (now : Int) (ok : Bool) (sig : Signature)
        (e2 : Escrow), process_release e acc now ok sig = .ok e2 → frameEq e e2) ∧
    (∀ (e : Escrow) (acc : RefundAccounts) (now : Int) (ok : Bool) (sig : Signature)
        (e2 : Escrow), process_refund e acc now ok sig = .ok e2 → frameEq e e2) ∧
    (∀ (e : Escrow) (acc : DisputeAccounts) (now : Int) (r : String) (e2 : Escrow),
        process_dispute e acc now r = .ok e2 → frameEq e e2) := by
  refine ⟨?_, ?_, ?_, ?_⟩
  · intro e acc ok sig e2 h
    rw [(fund_ok_inv e acc ok sig e2 h).2.2.2.2.2.2]
    unfold frameEq
    simp
  · intro e acc now ok sig e2 h
    rw [(release_ok_inv e acc now ok sig e2 h).2.2.2.2.2.2]
    unfold frameEq
    simp
  · intro e acc now ok sig e2 h
    rw [(refund_ok_inv e acc now ok sig e2 h).2.2.2.2.2.2]
    unfold frameEq
    simp
  · intro e acc now r e2 h
    rw [(dispute_ok_inv e acc now r e2 h).2.2.2]
    unfold frameEq
    simp

/-- C6 witness: the concrete successful Fund from `createdRecord` to
`fundedRecord` preserves the frame. -/
theorem operations_preserve_frame_witness : frameEq createdRecord fundedRecord :=
  operations_preserve_frame.1 createdRecord fundAccountsOk true sigA fundedRecord rfl

/-- C7: Fund, Release, Refund and Dispute write the record only after every
precondition check has passed and, for the fund-moving three, only after the
token transfer invocation returned successfully.  Whenever an operation
returns an error the persisted record is unchanged; a failed transfer alone
already forces an error; and a successful result certifies that every check
passed with the transfer succeeding. -/
theorem checks_and_transfer_before_write :
    (∀ (e : Escrow) (acc : FundAccounts) (ok : Bool) (sig : Signature),
        resultOk (process_fund e acc ok sig) = false →
        persist e (process_fund e acc ok sig) = e) ∧
    (∀ (e : Escrow) (acc : ReleaseAccounts) (now : Int) (ok : Bool) (sig : Signature),
        resultOk (process_release e acc now ok sig) = false →
        persist e (process_release e acc now ok sig) = e) ∧
    (∀ (e : Escrow) (acc : RefundAccounts) (now : Int) (ok : Bool) (sig : Signature),
        resultOk (process_refund e acc now ok sig) = false →
        persist e (process_refund e acc now ok sig) = e) ∧
    (∀ (e : Escrow) (acc : DisputeAccounts) (now : Int) (r : String),
        resultOk (process_dispute e acc now r) = false →
        persist e (process_dispute e acc now r) = e) ∧
    (∀ (e : Escrow) (acc : FundAccounts) (sig : Signature),
        resultOk (process_fund e acc false sig) = false) ∧
    (∀ (e : Escrow) (acc : ReleaseAccounts) (now : Int) (sig : Signature),
        resultOk (process_release e acc now false sig) = false) ∧
    (∀ (e : Escrow) (acc : RefundAccounts) (now : Int) (sig : Signature),
        resultOk (process_refund e acc now false sig) = false) ∧
    (∀ (e : Escrow) (acc : FundAccounts) (ok : Bool) (sig : Signature),
        resultOk (process_fund e acc ok sig) = true →
        acc.buyer_is_signer = true ∧ e.state = EscrowState.Created ∧
        e.buyer_pubkey = acc.buyer_key ∧
        e.buyer_token_account = acc.buyer_token_account_key ∧
        e.escrow_token_account = acc.escrow_token_account_key ∧ ok = true) ∧
    (∀ (e : Escrow) (acc : ReleaseAccounts) (now : Int) (ok : Bool) (sig : Signature),
        resultOk (process_release e acc now ok sig) = true →
        acc.seller_is_signer = true ∧ e.seller_pubkey = acc.seller_key ∧
        e.can_release now = true ∧
        e.seller_token_account = acc.seller_token_account_key ∧
        e.escrow_token_account = acc.escrow_token_account_key ∧ ok = true) ∧
    (∀ (e : Escrow) (acc : RefundAccounts) (now : Int) (ok : Bool) (sig : Signature),
        resultOk (process_refund e acc now ok sig) = true →
        acc.seller_is_signer = true ∧ e.seller_pubkey = acc.seller_key ∧
        e.can_refund now = true ∧
        e.buyer_token_account = acc.buyer_token_account_key ∧
        e.escrow_token_account = acc.escrow_token_account_key ∧ ok = true) ∧
    (∀ (e : Escrow) (acc : DisputeAccounts) (now : Int) (r : String),
        resultOk (process_dispute e acc now r) = true →
        acc.buyer_is_signer = true ∧ e.buyer_pubkey = acc.buyer_key ∧
        e.can_dispute now = true) := by
  refine ⟨fun e _ _ _ h => persist_of_not_ok e _ h,
    fun e _ _ _ _ h => persist_of_not_ok e _ h,
    fun e _ _ _ _ h => persist_of_not_ok e _ h,
    fun e _ _ _ h => persist_of_not_ok e _ h, ?_, ?_, ?_, ?_, ?_, ?_, ?_⟩
  · intro e acc sig
    cases hr : resultOk (process_fund e acc false sig) with
    | false => rfl
    | true =>
        obtain ⟨e2, he2⟩ := (resultOk_true_iff _).mp hr
        exact ((Bool.false_ne_true (fund_ok_inv e acc false sig e2 he2).2.2.2.2.2.1)).elim
  · intro e acc now sig
    cases hr : resultOk (process_release e acc now false sig) with
    | false => rfl
    | true =>
        obtain ⟨e2, he2⟩ := (resultOk_true_iff _).mp hr
        exact ((Bool.false_ne_true
          (release_ok_inv e acc now false sig e2 he2).2.2.2.2.2.1)).elim
  · intro e acc now sig
    cases hr : resultOk (process_refund e acc now false sig) with
    | false => rfl
    | true =>
        obtain ⟨e2, he2⟩ := (resultOk_true_iff _).mp hr
        exact ((Bool.false_ne_true
          (refund_ok_inv e acc now false sig e2 he2).2.2.2.2.2.1)).elim
  · intro e acc ok sig h
    obtain ⟨e2, he2⟩ := (resultOk_true_iff _).mp h
    have := fund_ok_inv e acc ok sig e2 he2
    exact ⟨this.1, this.2.1, this.2.2.1, this.2.2.2.1, this.2.2.2.2.1, this.2.2.2.2.2.1⟩
  · intro e acc now ok sig h
    obtain ⟨e2, he2⟩ := (resultOk_true_iff _).mp h
    have := release_ok_inv e acc now ok sig e2 he2
    exact ⟨this.1, this.2.1, this.2.2.1, this.2.2.2.1, this.2.2.2.2.1, this.2.2.2.2.2.1⟩
  · intro e acc now ok sig h
    obtain ⟨e2, he2⟩ := (resultOk_true_iff _).mp h
    have := refund_ok_inv e acc now ok sig e2 he2
    exact ⟨this.1, this.2.1, this.2.2.1, this.2.2.2.1, this.2.2.2.2.1, this.2.2.2.2.2.1⟩
  · intro e acc now r h
    obtain ⟨e2, he2⟩ := (resultOk_true_iff _).mp h
    have := dispute_ok_inv e acc now r e2 he2
    exact ⟨this.1, this.2.1, this.2.2.1⟩

/-- C7 witness: a Fund call on a concrete `Created` record whose token
transfer fails returns an error and the persisted slot is the original
record. -/
theorem checks_and_transfer_before_write_witness :
    resultOk (process_fund createdRecord fundAccountsOk false sigA) = false ∧
    persist createdRecord (process_fund createdRecord fundAccountsOk false sigA) =
      createdRecord := by
  have h := checks_and_transfer_before_write.2.2.2.2.1 createdRecord fundAccountsOk sigA
  exact ⟨h, checks_and_transfer_before_write.1 createdRecord fundAccountsOk false sigA h⟩

/-- C8: when both parties signed and the escrow account is rent-exempt, an
Initialize call at current time `now` fails with `ReleaseTimeNotReached` if
`release_timestamp ≤ now`, and otherwise succeeds, writing a record in state
`Created` with `creation_timestamp = now`, an all-zero transaction signature,
and exactly the given amount, release timestamp, dispute window and listing
id, with the party and token-account keys taken from the account list. -/
theorem initialize_spec (stored : Escrow) (acc : InitAccounts) (now : Int)
    (amount : Nat) (rel win : Int) (lst : Nat)
    (hs : acc.seller_is_signer = true) (hb : acc.buyer_is_signer = true)
    (hr : acc.rent_exempt = true) :
    (rel ≤ now →
      process_initialize stored acc now amount rel win lst =
        .error (.custom .ReleaseTimeNotReached)) ∧
    (now < rel →
      process_initialize stored acc now amount rel win lst =
        .ok { is_initialized := true
              seller_pubkey := acc.seller_key
              buyer_pubkey := acc.buyer_key
              seller_token_account := acc.seller_token_account_key
              buyer_token_account := acc.buyer_token_account_key
              escrow_token_account := acc.escrow_token_account_key
              amount := amount
              state := .Created
              creation_timestamp := now
              release_timestamp := rel
              dispute_time_window := win
              listing_id := lst
              transaction_signature := zeroSignature }) := by
  constructor
  · intro hle
    simp [ process_initialize, hs, hb, hr, hle]
  · intro hlt
    simp [ process_initialize, hs, hb, hr, not_le.mpr hlt]

/-- C8 witness: Initialize on the empty slot at time 0 with
`release_timestamp = 1000 > 0` yields exactly `createdRecord`; with
`release_timestamp = 0 ≤ 0` it would fail with `ReleaseTimeNotReached`. -/
theorem initialize_spec_witness :
    ((1000 : Int) ≤ 0 →
      process_initialize emptySlot initAccountsOk 0 1000 1000 500 7 =
        .error (.custom .ReleaseTimeNotReached)) ∧
    ((0 : Int) < 1000 →
      process_initialize emptySlot initAccountsOk 0 1000 1000 500 7 =
        .ok createdRecord) :=
  initialize_spec emptySlot initAccountsOk 0 1000 1000 500 7 rfl rfl rfl

/-- The record written by Initialize at `now = -(2^63)` (the least `i64`
timestamp) with `dispute_time_window = -1` and `release_timestamp = 0`. -/
def underflowCreated : Escrow :=
  { is_initialized := true
    seller_pubkey := 1
    buyer_pubkey := 2
    seller_token_account := 3
    buyer_token_account := 4
    escrow_token_account := 5
    amount := 1000
    state := .Created
    creation_timestamp := -(2 ^ 63)
    release_timestamp := 0
    dispute_time_window := -1
    listing_id := 7
    transaction_signature := zeroSignature }

/-- `underflowCreated` after a successful Fund. -/
def underflowFunded : Escrow :=
  { underflowCreated with state := .Funded, transaction_signature := sigA }

/-- C9 counterexample: an escrow created with a negative dispute window whose
deadline sum `creation_timestamp + dispute_time_window` underflows `i64` is
disputable in forward time.  Initialize at `now = -(2^63)` with window `-1`
succeeds; after funding, `can_dispute` at `t = -(2^63) ≥ creation_timestamp`
returns `true`, because the wrapped deadline is `2^63 - 1`. -/
theorem dispute_window_underflow_counterexample :
    process_initialize emptySlot initAccountsOk (-(2 ^ 63)) 1000 0 (-1) 7 =
      .ok underflowCreated ∧
    process_fund underflowCreated fundAccountsOk true sigA = .ok underflowFunded ∧
    underflowFunded.dispute_time_window ≤ 0 ∧
    underflowFunded.creation_timestamp ≤ -(2 ^ 63) ∧
    underflowFunded.can_dispute (-(2 ^ 63)) = true := by
  exact ⟨rfl, rfl, by decide, by decide, by decide⟩

/-- C9 (amended): Initialize validates neither `amount` nor
`dispute_time_window`: for every amount (including zero) and every window
(including zero and negative values) it succeeds whenever the signer, rent and
release-timestamp checks pass.  And for a record with `dispute_time_window ≤ 0`
whose deadline sum `creation_timestamp + dispute_time_window` does not
underflow `i64`, `can_dispute` is false at every time `t ≥
creation_timestamp`, so the dispute path is unreachable in forward time. -/
theorem initialize_unvalidated_inputs :
    (∀ (stored : Escrow) (acc : InitAccounts) (now : Int) (amount : Nat)
        (rel win : Int) (lst : Nat),
        acc.seller_is_signer = true → acc.buyer_is_signer = true →
        acc.rent_exempt = true → now < rel →
        resultOk ( process_initialize stored acc now amount rel win lst) = true) ∧
    (∀ (e : Escrow) (t : Int),
        e.dispute_time_window ≤ 0 →
        -(2 ^ 63) ≤ e.creation_timestamp + e.dispute_time_window →
        e.creation_timestamp < 2 ^ 63 →
        e.creation_timestamp ≤ t →
        e.can_dispute t = false) := by
  constructor
  · intro stored acc now amount rel win lst hs hb hr hlt
    simp [ process_initialize, hs, hb, hr, not_le.mpr hlt, resultOk]
  · intro e t hw hlo hhi hct
    have hsum : inI64 (e.creation_timestamp + e.dispute_time_window) :=
      ⟨hlo, by omega⟩
    have hadd : i64add e.creation_timestamp e.dispute_time_window =
        e.creation_timestamp + e.dispute_time_window := i64wrap_eq_self _ hsum
    unfold Escrow.can_dispute
    rcases hst : e.state <;> simp only []
    case Funded =>
      rw [hadd]
      simp only [decide_eq_false_iff_not, not_lt]
      omega

/-- C9 witness: Initialize with amount 0 and window `-3` succeeds on the empty
slot at time 0 against release timestamp 10. -/
theorem initialize_unvalidated_inputs_witness :
    resultOk ( process_initialize emptySlot initAccountsOk 0 0 10 (-3) 7) = true :=
  initialize_unvalidated_inputs.1 emptySlot initAccountsOk 0 0 10 (-3) 7 rfl rfl rfl
    (by decide)

/-- A Funded record whose deadline sum overflows `i64`: creation at
`i64::MAX`, window 2. -/
def overflowRecordB : Escrow :=
  { createdRecord with
    state := .Funded
    creation_timestamp := 2 ^ 63 - 1
    dispute_time_window := 2 }

/-- C10: `can_dispute` adds `creation_timestamp + dispute_time_window` with
unchecked (wrapping, mod 2^64) signed 64-bit addition.  For every Funded
record whose exact sum lies in the `i64` range the comparison agrees with
exact integer arithmetic; for the Funded record `overflowRecordB`, whose exact
sum `2^63 + 1` overflows `i64`, the wrapped comparison disagrees with the
exact one: at time 0 the exact deadline lies in the future, yet `can_dispute`
returns `false`. -/
theorem can_dispute_wrapping_semantics :
    (∀ (e : Escrow) (t : Int),
        e.state = EscrowState.Funded →
        inI64 (e.creation_timestamp + e.dispute_time_window) →
        (e.can_dispute t = true ↔
          t < e.creation_timestamp + e.dispute_time_window)) ∧
    (overflowRecordB.state = EscrowState.Funded ∧
      ¬ inI64 (overflowRecordB.creation_timestamp + overflowRecordB.dispute_time_window) ∧
      (0 : Int) < overflowRecordB.creation_timestamp + overflowRecordB.dispute_time_window ∧
      overflowRecordB.can_dispute 0 = false) := by
  constructor
  · intro e t hst hsum
    have hadd : i64add e.creation_timestamp e.dispute_time_window =
        e.creation_timestamp + e.dispute_time_window := i64wrap_eq_self _ hsum
    unfold Escrow.can_dispute
    rw [hst]
    simp [hadd]
  · exact ⟨rfl, by decide, by decide, by decide⟩

/-- C10 witness: the exact-arithmetic characterization instantiated on the
in-range Funded record `fundedRecord` at time 100. -/
theorem can_dispute_wrapping_semantics_witness :
    fundedRecord.can_dispute 100 = true ↔
      (100 : Int) < fundedRecord.creation_timestamp + fundedRecord.dispute_time_window :=
  can_dispute_wrapping_semantics.1 fundedRecord 100 rfl (by decide)

end LumePay
